import Mathlib

/-!
Verification development for the vrp-backend route-construction engine.

The Python source is embedded shallowly:
* Python `float` values are modelled as `ℚ` (the repository only performs
  field arithmetic on them); the transcendental haversine distance
  (`_calculate_distance`) is modelled as an explicit function parameter
  `dist : Coordinate → Coordinate → ℚ`, since none of the verified
  properties depend on its values.
* Python `int` is `ℤ`, list lengths are `ℕ`.
* Fallible code is modelled with `Except PyErr` / `Option`; a bare
  `try ... except Exception: return None` block becomes a `match` mapping
  every `.error` to `none`.
-/

namespace VRP

/-- A Python runtime exception (only the identity of the error matters). -/
inductive PyErr where
  | zeroDivisionError
  | valueError
  | other (msg : String)
deriving DecidableEq

/-- Python `int(q)` on a float: truncation toward zero (`q.num / q.den`
uses `Int` T-division, which truncates toward zero). -/
def pyTrunc (q : ℚ) : ℤ := Int.tdiv q.num (q.den : ℤ)

/-- Python `round(x, 2)` (modelled with round-half-up rather than the
interpreter's bankers rounding; no verified property depends on the
tie-breaking rule). -/
def round2 (q : ℚ) : ℚ := (round (q * 100) : ℤ) / 100

/-- Python `round(x, 1)`, same modelling note as `round2`. -/
def round1 (q : ℚ) : ℚ := (round (q * 10) : ℤ) / 10

/-- Python f-string `f"{n:02d}"`: zero-pad to width 2. -/
def formatTwoDigits (n : ℤ) : String :=
  if 0 ≤ n ∧ n < 10 then "0" ++ toString n else toString n

/-- Python f-string `f"{n:03d}"`: zero-pad to width 3. -/
def formatThreeDigits (n : ℤ) : String :=
  if 0 ≤ n ∧ n < 10 then "00" ++ toString n
  else if 0 ≤ n ∧ n < 100 then "0" ++ toString n
  else toString n

/-- Split a character list at every occurrence of `sep`, keeping empty
segments — the behaviour of Python `str.split(sep)` for a one-character
separator. -/
def splitCharsOn (sep : Char) : List Char → List (List Char)
  | [] => [[]]
  | c :: cs =>
    match splitCharsOn sep cs with
    | g :: gs => if c = sep then [] :: g :: gs else (c :: g) :: gs
    | [] => if c = sep then [[], []] else [[c]]

/-- Python `s.split(sep)` for a one-character separator. -/
def pySplit (sep : Char) (s : String) : List String :=
  (splitCharsOn sep s.data).map String.mk

/-- Parse a nonempty all-digit character list as a natural number. -/
def parseNatDigits : List Char → Option ℕ
  | [] => none
  | cs =>
    if cs.all (·.isDigit) then
      some (cs.foldl (fun n c => n * 10 + (c.toNat - 48)) 0)
    else none

/-- Python `int(s)` on a string: optional sign followed by digits,
`none` when the call would raise `ValueError`.  (The interpreter also
accepts surrounding whitespace and digit-group underscores; no caller in
this repository produces either.) -/
def pyInt? (s : String) : Option ℤ :=
  match s.data with
  | '-' :: cs => (parseNatDigits cs).map (fun n => -(n : ℤ))
  | '+' :: cs => (parseNatDigits cs).map (fun n => (n : ℤ))
  | cs => (parseNatDigits cs).map (fun n => (n : ℤ))

/-! ### Data model (src/models/vrp_models.py) -/

/-- `Coordinate` dataclass. -/
structure Coordinate where
  lat : ℚ
  lng : ℚ
deriving DecidableEq

/-- `TimeWindow` dataclass (`start`/`end` are HH:MM strings; the second
field is renamed `finish` because `end` is a Lean keyword). -/
structure TimeWindow where
  start : String
  finish : String
deriving DecidableEq

/-- `Customer` dataclass. -/
structure Customer where
  id : String
  name : String
  coordinate : Coordinate
  demand : ℤ
  time_window : Option TimeWindow := none
  service_time : ℤ := 15
  priority : ℤ := 5
  special_requirements : Option (List String) := none
deriving DecidableEq

/-- `Vehicle` dataclass. -/
structure Vehicle where
  id : String
  name : String
  type : String
  capacity : ℤ
  speed : ℚ := 50
  cost_per_km : ℚ := 5/2
  max_distance : Option ℤ := none
  fuel_type : Option String := none
  fuel_consumption : Option ℚ := none
  road_restrictions : Option (List String) := none
  is_eco_friendly : Bool := false
  driver_cost : Option ℚ := none
  maintenance_cost : Option ℚ := none
deriving DecidableEq

/-- `VRPRequest` dataclass. -/
structure VRPRequest where
  depot : Coordinate
  customers : List Customer
  vehicles : List Vehicle
  max_solving_time : ℤ := 300
  optimization_objective : String := "balanced"
  use_time_windows : Bool := false
  use_capacity_constraints : Bool := true
  use_distance_constraints : Bool := true
  algorithm : String := "ortools"
deriving DecidableEq

/-- `RouteStop` dataclass. -/
structure RouteStop where
  type : String
  id : String
  name : String
  coordinate : Coordinate
  demand : ℤ := 0
  load : ℤ := 0
  arrival_time : String := "08:00"
  departure_time : String := "08:00"
  service_time : ℤ := 0
  wait_time : ℤ := 0
deriving DecidableEq

/-- `Route` dataclass. -/
structure Route where
  vehicle_id : String
  vehicle_name : String
  vehicle_type : String
  capacity : ℤ
  stops : List RouteStop
  total_distance : ℚ
  total_cost : ℚ
  total_load : ℤ
  total_time : ℚ
  utilization_rate : ℚ
  efficiency : ℚ
deriving DecidableEq

/-- `VRPSolution` dataclass. -/
structure VRPSolution where
  routes : List Route
  total_distance : ℚ
  total_cost : ℚ
  total_time : ℚ
  vehicles_used : ℕ
  customers_served : ℕ
  average_utilization : ℚ
  average_efficiency : ℚ
  solving_time : ℚ
  status : String
  algorithm : String
  timestamp : String
deriving DecidableEq

/-- The customer stops of a route
(`[s for s in route.stops if s.type == 'customer']`). -/
def customerStops (rt : Route) : List RouteStop :=
  rt.stops.filter (fun s => s.type == "customer")

/-! ### Greedy strategy (src/services/simple_vrp_service.py)

All functions take the haversine distance `_calculate_distance` as the
parameter `dist`. -/

/-- `SimpleVRPService._minutes_to_time`: minutes to an HH:MM string using
Python floor division and modulo. -/
def minutes_to_time (m : ℤ) : String :=
  formatTwoDigits (Int.fdiv m 60) ++ ":" ++ formatTwoDigits (Int.fmod m 60)

/-- The nearest-customer scan inside `_create_simple_route`'s while loop:
fold over the remaining customers keeping the first strictly smaller
distance (the initial accumulator `none` plays the role of
`min_distance = float('inf')`). -/
def selectNearest (dist : Coordinate → Coordinate → ℚ) (cur : Coordinate) :
    List Customer → Option (Customer × ℚ) → Option (Customer × ℚ)
  | [], acc => acc
  | c :: cs, acc =>
    let d := dist cur c.coordinate
    let acc' : Option (Customer × ℚ) :=
      match acc with
      | none => some (c, d)
      | some (b, m) => if d < m then some (c, d) else some (b, m)
    selectNearest dist cur cs acc'

/-- Mutable loop state of `_create_simple_route`: the growing stop list,
accumulated distance and load, the simulated clock (minutes) and the
current location. -/
structure RouteBuildState where
  stops : List RouteStop
  total_distance : ℚ
  total_load : ℤ
  current_time : ℤ
  current_location : Coordinate

/-- One customer stop appended by the while loop of
`_create_simple_route`. -/
def nnStop (s : RouteBuildState) (c : Customer) : RouteStop :=
  { type := "customer", id := c.id, name := c.name, coordinate := c.coordinate,
    demand := c.demand, load := s.total_load + c.demand,
    arrival_time := minutes_to_time s.current_time,
    departure_time := minutes_to_time (s.current_time + c.service_time),
    service_time := c.service_time, wait_time := 0 }

/-- The while loop of `_create_simple_route`: visit the nearest remaining
customer, append its stop, update distance/load/clock/location, and remove
it from the remaining list (`list.remove` removes the first structurally
equal element).  The loop is driven by fuel equal to the initial number of
remaining customers, which is exact because each iteration removes one. -/
def nnRun (dist : Coordinate → Coordinate → ℚ) :
    ℕ → List Customer → RouteBuildState → RouteBuildState
  | 0, _, s => s
  | fuel + 1, remaining, s =>
    match selectNearest dist s.current_location remaining none with
    | none => s
    | some (c, d) =>
      nnRun dist fuel (remaining.erase c)
        { stops := s.stops ++ [nnStop s c],
          total_distance := s.total_distance + d,
          total_load := s.total_load + c.demand,
          current_time := s.current_time + c.service_time + pyTrunc (d * 60 / 50),
          current_location := c.coordinate }

/-- A depot `RouteStop` as built by `_create_simple_route`. -/
def depotStop (depot : Coordinate) (load : ℤ) (t : String) : RouteStop :=
  { type := "depot", id := "DEPOT", name := "Depo", coordinate := depot,
    demand := 0, load := load, arrival_time := t, departure_time := t,
    service_time := 0, wait_time := 0 }

/-- `SimpleVRPService._create_simple_route`. -/
def create_simple_route (dist : Coordinate → Coordinate → ℚ)
    (vehicle_idx : ℕ) (vehicle : Vehicle) (customers : List Customer)
    (depot : Coordinate) : Route :=
  let s0 : RouteBuildState :=
    { stops := [depotStop depot 0 "08:00"], total_distance := 0,
      total_load := 0, current_time := 8 * 60, current_location := depot }
  let s1 := nnRun dist customers.length customers s0
  let return_distance := dist s1.current_location depot
  let total_distance := s1.total_distance + return_distance
  let end_time := s1.current_time + pyTrunc (return_distance * 60 / 50)
  { vehicle_id := "V" ++ formatThreeDigits ((vehicle_idx : ℤ) + 1),
    vehicle_name := vehicle.name, vehicle_type := vehicle.type,
    capacity := vehicle.capacity,
    stops := s1.stops ++ [depotStop depot s1.total_load (minutes_to_time end_time)],
    total_distance := total_distance,
    total_cost := total_distance * vehicle.cost_per_km,
    total_load := s1.total_load,
    total_time := total_distance / 50,
    utilization_rate :=
      if vehicle.capacity > 0 then (s1.total_load : ℚ) / (vehicle.capacity : ℚ) else 0,
    efficiency :=
      if total_distance > 0 then (s1.total_load : ℚ) / total_distance else 0 }

/-- The per-vehicle assignment loop of `SimpleVRPService.solve_vrp`
(`for vehicle_id, vehicle in enumerate(request.vehicles)`): each vehicle
takes the first `k` remaining customers, the last vehicle additionally
absorbs everything left, and only vehicles with at least one assigned
customer produce a route. -/
def assignRoutes (dist : Coordinate → Coordinate → ℚ) (depot : Coordinate)
    (k : ℕ) : ℕ → List Vehicle → List Customer → List Route
  | _, [], _ => []
  | i, [v], remaining =>
    if remaining.isEmpty then []
    else [create_simple_route dist i v remaining depot]
  | i, v :: w :: vs, remaining =>
    let rest := assignRoutes dist depot k (i + 1) (w :: vs) (remaining.drop k)
    if (remaining.take k).isEmpty then rest
    else create_simple_route dist i v (remaining.take k) depot :: rest

/-- The body of `SimpleVRPService.solve_vrp` inside its `try` block.  With
no vehicles, `len(remaining_customers) // len(request.vehicles)` raises
`ZeroDivisionError`. -/
def simple_solve_body (dist : Coordinate → Coordinate → ℚ)
    (r : VRPRequest) : Except PyErr VRPSolution :=
  match r.vehicles with
  | [] => .error .zeroDivisionError
  | v :: vs =>
    let customers_per_vehicle := max 1 (r.customers.length / (v :: vs).length)
    let routes := assignRoutes dist r.depot customers_per_vehicle 0 (v :: vs) r.customers
    let total_distance := (routes.map (·.total_distance)).sum
    let total_cost := (routes.map (·.total_cost)).sum
    let total_time := (routes.map (·.total_time)).sum
    let customers_served := (routes.map (fun rt => (customerStops rt).length)).sum
    let average_utilization :=
      if routes.isEmpty then 0
      else (routes.map (·.utilization_rate)).sum / (routes.length : ℚ)
    let average_efficiency :=
      if routes.isEmpty then 0
      else (routes.map (·.efficiency)).sum / (routes.length : ℚ)
    .ok { routes := routes,
          total_distance := round2 total_distance,
          total_cost := round2 total_cost,
          total_time := round2 total_time,
          vehicles_used := routes.length,
          customers_served := customers_served,
          average_utilization := round1 (average_utilization * 100),
          average_efficiency := round2 average_efficiency,
          solving_time := 1 / 100,
          status := "success",
          algorithm := "Simple Multi-Vehicle",
          timestamp := "2025-01-01T00:00:00" }

/-- `SimpleVRPService.solve_vrp`: the whole body runs inside
`try ... except Exception: return None`, so an exception becomes the
non-raised result `none`.  The `Except` codomain records that no exception
escapes to the caller. -/
def simple_solve_vrp (dist : Coordinate → Coordinate → ℚ)
    (r : VRPRequest) : Except PyErr (Option VRPSolution) :=
  match simple_solve_body dist r with
  | .ok s => .ok (some s)
  | .error _ => .ok none

/-! ### Constraint-programming strategy (src/services/vrp_service.py) -/

/-- `VRPService._time_to_seconds`: parse an HH:MM string; any parse
failure is swallowed by the function's own `try ... except: return 0`. -/
def time_to_seconds (s : String) : ℤ :=
  match pySplit ':' s with
  | [h, m] =>
    match pyInt? h, pyInt? m with
    | some hv, some mv => hv * 3600 + mv * 60
    | _, _ => 0
  | _ => 0

/-- `VRPService._seconds_to_time`: seconds to an HH:MM string using
Python floor division and modulo. -/
def seconds_to_time (n : ℤ) : String :=
  formatTwoDigits (Int.fdiv n 3600) ++ ":" ++ formatTwoDigits (Int.fdiv (Int.fmod n 3600) 60)

/-- The dictionary built by `VRPService._create_data_model`. -/
structure DataModel where
  distance_matrix : List (List ℤ)
  time_matrix : List (List ℤ)
  num_vehicles : ℕ
  depot : ℕ
  demands : List ℤ
  vehicle_capacities : List ℤ
  time_windows : List (ℤ × ℤ)
  service_times : List ℤ
  vehicle_speeds : List ℚ
  vehicle_costs : List ℚ
  vehicle_fixed_costs : List ℕ
deriving DecidableEq

/-- `VRPService._create_data_model`.  Matrix entries are indexed over
node 0 = depot, node i = customer i−1; the `time_windows` list is filled
only when `use_time_windows` is set (otherwise it stays the empty list
initialized before the `if`). -/
def create_data_model (dist : Coordinate → Coordinate → ℚ)
    (r : VRPRequest) : DataModel :=
  let locations := r.depot :: r.customers.map (·.coordinate)
  let n := locations.length
  { distance_matrix :=
      (List.range n).map (fun i => (List.range n).map (fun j =>
        if i = j then 0
        else pyTrunc (dist (locations.getD i ⟨0, 0⟩) (locations.getD j ⟨0, 0⟩) * 1000))),
    time_matrix :=
      (List.range n).map (fun i => (List.range n).map (fun j =>
        if i = j then 0
        else pyTrunc (dist (locations.getD i ⟨0, 0⟩) (locations.getD j ⟨0, 0⟩) * 3600 / 50))),
    num_vehicles := r.vehicles.length,
    depot := 0,
    demands := 0 :: r.customers.map (·.demand),
    vehicle_capacities := r.vehicles.map (·.capacity),
    time_windows :=
      if r.use_time_windows then
        (0, 86400) :: r.customers.map (fun c =>
          match c.time_window with
          | some tw => (time_to_seconds tw.start, time_to_seconds tw.finish)
          | none => (0, 86400))
      else [],
    service_times := 0 :: r.customers.map (fun c => c.service_time * 60),
    vehicle_speeds := r.vehicles.map (·.speed),
    vehicle_costs := r.vehicles.map (·.cost_per_km),
    vehicle_fixed_costs := List.range r.vehicles.length }

/-- A capacity dimension as registered by
`routing.AddDimensionWithVehicleCapacity`. -/
structure CapacityDimensionSpec where
  slack_max : ℤ
  vehicle_capacities : List ℤ
  start_cumul_to_zero : Bool
deriving DecidableEq

/-- A time dimension as registered by `routing.AddDimension` plus the
per-node `CumulVar().SetRange` bounds. -/
structure TimeDimensionSpec where
  slack_max : ℤ
  capacity : ℤ
  start_cumul_to_zero : Bool
  node_ranges : List (ℤ × ℤ)
deriving DecidableEq

/-- The routing model assembled by `VRPService._solve_with_ortools`
before `SolveWithParameters` is called: which dimensions are added and
with which bounds, plus the per-vehicle fixed costs and search limits. -/
structure RoutingModelSpec where
  num_nodes : ℕ
  num_vehicles : ℕ
  depot : ℕ
  capacity_dimension : Option CapacityDimensionSpec
  time_dimension : Option TimeDimensionSpec
  vehicle_fixed_costs : List ℤ
  solution_limit : ℕ
  time_limit_seconds : ℤ
deriving DecidableEq

/-- The model-construction part of `VRPService._solve_with_ortools`
(lines 100–175): the capacity dimension is added unconditionally with
zero slack, the vehicles' capacities as bounds and the cumul started at
zero; the time dimension is added only under `request.use_time_windows`
(the `'time_windows' in data` conjunct is always true because
`_create_data_model` always stores the key); each vehicle's fixed cost is
`vehicle_id * 1`. -/
def build_routing_model (data : DataModel) (r : VRPRequest) : RoutingModelSpec :=
  { num_nodes := data.distance_matrix.length,
    num_vehicles := data.num_vehicles,
    depot := data.depot,
    capacity_dimension := some ⟨0, data.vehicle_capacities, true⟩,
    time_dimension :=
      if r.use_time_windows then some ⟨86400, 86400, false, data.time_windows⟩
      else none,
    vehicle_fixed_costs := (List.range data.num_vehicles).map (fun i => (i : ℤ) * 1),
    solution_limit := 1,
    time_limit_seconds := min r.max_solving_time 30 }

/-- `VRPService._solve_with_ortools`: the external `SolveWithParameters`
call (and result extraction) is the parameter `solver`; the function's own
`try ... except` turns any raised exception into `None`. -/
def solve_with_ortools {α : Type} (solver : RoutingModelSpec → Except PyErr (Option α))
    (data : DataModel) (r : VRPRequest) : Option α :=
  match solver (build_routing_model data r) with
  | .ok v => v
  | .error _ => none

/-- `VRPService.solve_vrp`: build the data model, run OR-Tools, format a
found solution; the whole body runs inside `try ... except Exception:
return None`.  The external solver result type `α` and the
`_format_solution` step (which walks the external assignment object) are
parameters; `format` may itself raise, which the outer handler catches. -/
def vrp_solve_vrp {α : Type} (solver : RoutingModelSpec → Except PyErr (Option α))
    (format : α → Except PyErr VRPSolution)
    (dist : Coordinate → Coordinate → ℚ) (r : VRPRequest) :
    Except PyErr (Option VRPSolution) :=
  let body : Except PyErr (Option VRPSolution) :=
    let data := create_data_model dist r
    match solve_with_ortools solver data r with
    | some res =>
      match format res with
      | .ok s => .ok (some s)
      | .error e => .error e
    | none => .ok none
  match body with
  | .ok v => .ok v
  | .error _ => .ok none

/-! ### External/AI strategy (src/services/gemini_service.py)

The reply of the generative model is consumed after `json.loads` as a
dictionary; the structures below model the dictionary fields the code
reads, with `none` standing for an absent key (`dict.get` default). -/

/-- A stop dictionary inside a returned route. -/
structure StopData where
  type : Option String := none
  name : Option String := none
  demand : Option ℤ := none
deriving DecidableEq

/-- A route dictionary inside the returned solution. -/
structure RouteData where
  vehicle_id : Option String := none
  vehicle_name : Option String := none
  stops : Option (List StopData) := none
  total_distance : Option ℚ := none
  total_cost : Option ℚ := none
  total_load : Option ℤ := none
deriving DecidableEq

/-- The top-level returned solution dictionary. -/
structure SolutionData where
  routes : Option (List RouteData) := none
  total_distance : Option ℚ := none
  total_cost : Option ℚ := none
  vehicles_used : Option ℕ := none
  customers_served : Option ℕ := none
deriving DecidableEq

/-- `GeminiVRPService._create_stop_from_data`: a depot stop is rebuilt
from the request's depot; a customer stop is matched against the
request's customers by name (`c.name == stop_data.get('name')`) and
silently dropped (`None`) when unmatched. -/
def create_stop_from_data (sd : StopData) (r : VRPRequest) : Option RouteStop :=
  let stop_type := sd.type.getD "customer"
  if stop_type == "depot" then
    some { type := "depot", id := "DEPOT", name := "Depo", coordinate := r.depot,
           load := 0, arrival_time := "08:00", departure_time := "08:00",
           service_time := 0 }
  else
    match r.customers.find? (fun c => some c.name == sd.name) with
    | some c =>
      some { type := "customer", id := c.id, name := c.name,
             coordinate := c.coordinate, demand := c.demand,
             load := sd.demand.getD c.demand,
             arrival_time := "09:00", departure_time := "09:15",
             service_time := c.service_time, wait_time := 0 }
    | none => none

/-- `GeminiVRPService._create_route_from_data`: one `for` loop selects the
first request vehicle whose name equals the returned name **or** whose id
equals the returned id; with no match the code falls back to
`request.vehicles[0]` (an empty vehicle list makes that line raise, which
the function's own `try ... except` turns into `None`). -/
def create_route_from_data (rd : RouteData) (r : VRPRequest) : Option Route :=
  let vehicle_id := rd.vehicle_id.getD "V001"
  let vehicle_name := rd.vehicle_name.getD "Araç"
  match (r.vehicles.find? (fun v => v.name == vehicle_name || v.id == vehicle_id)).orElse
      (fun _ => r.vehicles.head?) with
  | none => none
  | some vehicle =>
    let stops := (rd.stops.getD []).filterMap (fun sd => create_stop_from_data sd r)
    let total_distance := rd.total_distance.getD 0
    let total_load := rd.total_load.getD 0
    some { vehicle_id := vehicle_id, vehicle_name := vehicle_name,
           vehicle_type := vehicle.type, capacity := vehicle.capacity,
           stops := stops,
           total_distance := total_distance,
           total_cost := rd.total_cost.getD 0,
           total_load := total_load,
           total_time := 0,
           utilization_rate :=
             if vehicle.capacity > 0 then (total_load : ℚ) / (vehicle.capacity : ℚ) else 0,
           efficiency :=
             if total_distance > 0 then (total_load : ℚ) / total_distance else 0 }

/-- The code-fence cleanup at the top of
`GeminiVRPService._parse_gemini_response`. -/
def stripCodeFences (s : String) : String :=
  let s1 := s.trim
  let s2 := if s1.startsWith "```json" then s1.drop 7 else s1
  if s2.endsWith "```" then s2.dropRight 3 else s2

/-- `GeminiVRPService._parse_gemini_response`: `json.loads` is the
parameter `jsonParse`; a parse failure (or any other exception in the
body) is caught by the function's own `try ... except` and reported as
`None`. -/
def parse_gemini_response (jsonParse : String → Except PyErr SolutionData)
    (text : String) (r : VRPRequest) : Option VRPSolution :=
  match jsonParse (stripCodeFences text) with
  | .error _ => none
  | .ok sd =>
    let routes := (sd.routes.getD []).filterMap (fun rd => create_route_from_data rd r)
    some { routes := routes,
           total_distance := sd.total_distance.getD 0,
           total_cost := sd.total_cost.getD 0,
           total_time := 0,
           vehicles_used := sd.vehicles_used.getD routes.length,
           customers_served := sd.customers_served.getD 0,
           average_utilization := 0,
           average_efficiency := 0,
           solving_time := 0,
           status := "success",
           algorithm := "Gemini AI",
           timestamp := "2025-01-01T00:00:00" }

/-- `GeminiVRPService.solve_vrp`: the network call `generate_content` is
the parameter `transport`; the whole body runs inside `try ... except
Exception: return None`. -/
def gemini_solve_vrp (jsonParse : String → Except PyErr SolutionData)
    (transport : Except PyErr String) (r : VRPRequest) :
    Except PyErr (Option VRPSolution) :=
  let body : Except PyErr (Option VRPSolution) :=
    match transport with
    | .error e => .error e
    | .ok text => .ok (parse_gemini_response jsonParse text r)
  match body with
  | .ok v => .ok v
  | .error _ => .ok none

/-! ### Orchestrator (src/controllers/vrp_controller.py, lines 117–129) -/

/-- The result of the controller's fallback chain together with which
strategies were invoked. -/
structure ChainTrace where
  result : Option VRPSolution
  simpleInvoked : Bool
  geminiInvoked : Bool
  ortoolsInvoked : Bool
deriving DecidableEq

/-- The fallback chain of `VRPController.solve_vrp`: the Simple solver is
always called first; Gemini only when it returned `None`; OR-Tools only
when both did (`if not result` on an `Optional[VRPSolution]` is a
`None`-test, since a dataclass instance is always truthy).  Each strategy
is a thunk so that the trace records exactly which ones run. -/
def solve_fallback_chain (simple gemini ortools : Unit → Option VRPSolution) :
    ChainTrace :=
  match simple () with
  | some s =>
    { result := some s, simpleInvoked := true, geminiInvoked := false,
      ortoolsInvoked := false }
  | none =>
    match gemini () with
    | some s =>
      { result := some s, simpleInvoked := true, geminiInvoked := true,
        ortoolsInvoked := false }
    | none =>
      { result := ortools (), simpleInvoked := true, geminiInvoked := true,
        ortoolsInvoked := true }

/-- The controller's reported outcome: `success=True` with solution data
when a strategy returned one, `success=False` (`'Çözüm bulunamadı'`)
otherwise. -/
def chainReportsSuccess (t : ChainTrace) : Bool := t.result.isSome

/-- Extract the solution from a strategy's non-raising return value. -/
def solutionOf? (e : Except PyErr (Option VRPSolution)) : Option VRPSolution :=
  match e with
  | .ok v => v
  | .error _ => none

/-- The routes of a strategy's returned solution (empty when the strategy
returned no solution). -/
def solvedRoutes (e : Except PyErr (Option VRPSolution)) : List Route :=
  match solutionOf? e with
  | some s => s.routes
  | none => []

/-- The identifying content of a customer stop: id, name, coordinate and
demand. -/
def stopKey (st : RouteStop) : String × String × Coordinate × ℤ :=
  (st.id, st.name, st.coordinate, st.demand)

/-- The identifying content of a customer, matching `stopKey` on the stop
the greedy strategy builds for it. -/
def custKey (c : Customer) : String × String × Coordinate × ℤ :=
  (c.id, c.name, c.coordinate, c.demand)

/-! ### Concrete fixtures used by witnesses and counterexamples -/

/-- A concrete stand-in for the haversine distance (all claims hold for
every distance function; witnesses use this one, under which all the
fixture coordinates — which coincide — also have haversine distance 0). -/
def dist0 : Coordinate → Coordinate → ℚ := fun _ _ => 0

/-- Fixture customer: demand 10 at the depot coordinate. -/
def custC2 : Customer :=
  { id := "C1", name := "Ayse Market", coordinate := ⟨41, 29⟩, demand := 10 }

/-- Fixture vehicle: capacity 5. -/
def vehC2 : Vehicle :=
  { id := "V001", name := "Kamyon 1", type := "truck", capacity := 5 }

/-- Fixture request: one customer of demand 10, one vehicle of capacity 5,
default options (`use_capacity_constraints = True`). -/
def reqC2 : VRPRequest :=
  { depot := ⟨41, 29⟩, customers := [custC2], vehicles := [vehC2] }

/-- The route the greedy strategy builds for `reqC2` under `dist0`. -/
def rtC2w : Route :=
  { vehicle_id := "V001", vehicle_name := "Kamyon 1", vehicle_type := "truck",
    capacity := 5,
    stops := [depotStop ⟨41, 29⟩ 0 "08:00",
              { type := "customer", id := "C1", name := "Ayse Market",
                coordinate := ⟨41, 29⟩, demand := 10, load := 10,
                arrival_time := "08:00", departure_time := "08:15",
                service_time := 15, wait_time := 0 },
              depotStop ⟨41, 29⟩ 10 "08:15"],
    total_distance := 0, total_cost := 0, total_load := 10, total_time := 0,
    utilization_rate := 2, efficiency := 0 }

/-- Fixture request with time windows enabled; the first customer has a
window, the second does not. -/
def reqC4tw : VRPRequest :=
  { depot := ⟨41, 29⟩,
    customers := [{ custC2 with time_window := some ⟨"09:00", "12:30"⟩ },
                  { custC2 with id := "C2", name := "Bora Market" }],
    vehicles := [vehC2], use_time_windows := true }

/-- Fixture request with `use_capacity_constraints = False`. -/
def reqC5 : VRPRequest :=
  { depot := ⟨41, 29⟩, customers := [custC2], vehicles := [vehC2],
    use_capacity_constraints := false }

/-- A parsed external reply whose single route contains one customer stop
and no depot stop. -/
def sdC7 : SolutionData :=
  { routes := some [{ vehicle_name := some "Kamyon 1",
                      stops := some [{ type := some "customer",
                                       name := some "Ayse Market" }] }] }

/-- Fixture vehicle whose id (but not name) matches the reply of `rdC8`. -/
def vehC8a : Vehicle :=
  { id := "V002", name := "Truck A", type := "van", capacity := 111 }

/-- Fixture vehicle whose name (but not id) matches the reply of `rdC8`. -/
def vehC8b : Vehicle :=
  { id := "V999", name := "Araç 2", type := "truck", capacity := 222 }

/-- Fixture request for vehicle reconciliation: the id-matching vehicle
precedes the name-matching one. -/
def reqC8 : VRPRequest :=
  { depot := ⟨41, 29⟩, customers := [], vehicles := [vehC8a, vehC8b] }

/-- A returned route naming `vehC8b` by name and `vehC8a` by id. -/
def rdC8 : RouteData :=
  { vehicle_id := some "V002", vehicle_name := some "Araç 2" }

/-- The route `_create_route_from_data` builds from `rdC8` over `reqC8`. -/
def rtC8w : Route :=
  { vehicle_id := "V002", vehicle_name := "Araç 2", vehicle_type := "van",
    capacity := 111, stops := [], total_distance := 0, total_cost := 0,
    total_load := 0, total_time := 0, utilization_rate := 0, efficiency := 0 }

/-- Fixture request with more vehicles than customers. -/
def reqC10w : VRPRequest :=
  { depot := ⟨41, 29⟩, customers := [custC2],
    vehicles := [vehC2, { vehC2 with id := "V002", name := "Kamyon 2" }] }

/-- An arbitrary concrete solution value, used to exercise the fallback
chain. -/
def solX : VRPSolution :=
  { routes := [], total_distance := 0, total_cost := 0, total_time := 0,
    vehicles_used := 0, customers_served := 0, average_utilization := 0,
    average_efficiency := 0, solving_time := 0, status := "success",
    algorithm := "X", timestamp := "2025-01-01T00:00:00" }

/-- A strategy thunk that finds no solution. -/
def thunkNone : Unit → Option VRPSolution := fun _ => none

/-- A strategy thunk that returns `solX`. -/
def thunkSolX : Unit → Option VRPSolution := fun _ => some solX

/-! ### Helper lemmas about the greedy construction -/

theorem selectNearest_eq_some (dist : Coordinate → Coordinate → ℚ) (cur : Coordinate) :
    ∀ (cs : List Customer) (acc : Option (Customer × ℚ)) (p : Customer × ℚ),
      selectNearest dist cur cs acc = some p → acc = some p ∨ p.1 ∈ cs := by
  intro cs
  induction cs with
  | nil => intro acc p h; exact Or.inl h
  | cons c cs ih =>
    intro acc p h
    simp only [selectNearest] at h
    cases acc with
    | none =>
      dsimp only at h
      rcases ih _ p h with h' | h'
      · right
        obtain rfl : (c, dist cur c.coordinate) = p := Option.some.inj h'
        exact List.mem_cons_self _ _
      · right; exact List.mem_cons_of_mem _ h'
    | some bm =>
      rcases bm with ⟨b, m⟩
      dsimp only at h
      by_cases hd : dist cur c.coordinate < m
      · rw [if_pos hd] at h
        rcases ih _ p h with h' | h'
        · right
          obtain rfl : (c, dist cur c.coordinate) = p := Option.some.inj h'
          exact List.mem_cons_self _ _
        · right; exact List.mem_cons_of_mem _ h'
      · rw [if_neg hd] at h
        rcases ih _ p h with h' | h'
        · left; exact h'
        · right; exact List.mem_cons_of_mem _ h'

theorem selectNearest_some_of_acc (dist : Coordinate → Coordinate → ℚ) (cur : Coordinate) :
    ∀ (cs : List Customer) (b : Customer × ℚ),
      ∃ p, selectNearest dist cur cs (some b) = some p := by
  intro cs
  induction cs with
  | nil => intro b; exact ⟨b, rfl⟩
  | cons c cs ih =>
    intro b
    rcases b with ⟨b, m⟩
    simp only [selectNearest]
    by_cases hd : dist cur c.coordinate < m
    · rw [if_pos hd]; exact ih _
    · rw [if_neg hd]; exact ih _

theorem selectNearest_some_of_ne_nil (dist : Coordinate → Coordinate → ℚ)
    (cur : Coordinate) (cs : List Customer) (h : cs ≠ []) :
    ∃ p, selectNearest dist cur cs none = some p := by
  match cs with
  | c :: cs =>
    simp only [selectNearest]
    exact selectNearest_some_of_acc dist cur cs (c, dist cur c.coordinate)

theorem nnRun_spec (dist : Coordinate → Coordinate → ℚ) :
    ∀ (fuel : ℕ) (cs : List Customer) (s : RouteBuildState), cs.length = fuel →
      ∃ L : List RouteStop,
        (nnRun dist fuel cs s).stops = s.stops ++ L ∧
        List.Perm (L.map stopKey) (cs.map custKey) ∧
        (∀ st ∈ L, st.type = "customer") ∧
        (nnRun dist fuel cs s).total_load = s.total_load + (cs.map (fun x => x.demand)).sum := by
  intro fuel
  induction fuel with
  | zero =>
    intro cs s h
    have hnil : cs = [] := List.eq_nil_of_length_eq_zero h
    subst hnil
    exact ⟨[], by simp [nnRun], by simp, by simp, by simp [nnRun]⟩
  | succ fuel ih =>
    intro cs s h
    have hne : cs ≠ [] := by intro e; subst e; simp at h
    obtain ⟨⟨c, d⟩, hsel⟩ := selectNearest_some_of_ne_nil dist s.current_location cs hne
    have hmem : c ∈ cs := by
      rcases selectNearest_eq_some dist s.current_location cs none (c, d) hsel with h' | h'
      · cases h'
      · exact h'
    have hlen : (cs.erase c).length = fuel := by
      rw [List.length_erase_of_mem hmem, h]
      rfl
    have hperm : List.Perm cs (c :: cs.erase c) := List.perm_cons_erase hmem
    obtain ⟨L', hstops, hpermL, htype, hload⟩ := ih (cs.erase c)
      { stops := s.stops ++ [nnStop s c],
        total_distance := s.total_distance + d,
        total_load := s.total_load + c.demand,
        current_time := s.current_time + c.service_time + pyTrunc (d * 60 / 50),
        current_location := c.coordinate } hlen
    have hrun : nnRun dist (fuel + 1) cs s = nnRun dist fuel (cs.erase c)
        { stops := s.stops ++ [nnStop s c],
          total_distance := s.total_distance + d,
          total_load := s.total_load + c.demand,
          current_time := s.current_time + c.service_time + pyTrunc (d * 60 / 50),
          current_location := c.coordinate } := by
      rw [nnRun, hsel]
    refine ⟨nnStop s c :: L', ?_, ?_, ?_, ?_⟩
    · rw [hrun, hstops]
      simp
    · have h1 : stopKey (nnStop s c) = custKey c := rfl
      have h2 : List.Perm (cs.map custKey) (custKey c :: (cs.erase c).map custKey) :=
        hperm.map custKey
      have hstep : List.Perm ((nnStop s c :: L').map stopKey)
          (custKey c :: (cs.erase c).map custKey) := by
        simpa [h1] using hpermL.cons (custKey c)
      exact hstep.trans h2.symm
    · intro st hst
      rcases List.mem_cons.mp hst with h' | h'
      · subst h'; rfl
      · exact htype st h'
    · rw [hrun, hload]
      have hsum : (cs.map (fun x => x.demand)).sum =
          c.demand + ((cs.erase c).map (fun x => x.demand)).sum := by
        have := (hperm.map (fun x => x.demand)).sum_eq
        simpa using this
      rw [hsum]
      ring

theorem create_simple_route_spec (dist : Coordinate → Coordinate → ℚ)
    (i : ℕ) (v : Vehicle) (cs : List Customer) (depot : Coordinate) :
    (create_simple_route dist i v cs depot).vehicle_name = v.name ∧
    (create_simple_route dist i v cs depot).vehicle_type = v.type ∧
    (create_simple_route dist i v cs depot).capacity = v.capacity ∧
    ((create_simple_route dist i v cs depot).stops.head?.map (fun st => st.type))
      = some "depot" ∧
    ((create_simple_route dist i v cs depot).stops.getLast?.map (fun st => st.type))
      = some "depot" ∧
    List.Perm ((customerStops (create_simple_route dist i v cs depot)).map stopKey)
      (cs.map custKey) ∧
    (create_simple_route dist i v cs depot).total_load = (cs.map (fun x => x.demand)).sum := by
  obtain ⟨L, hstops, hperm, htype, hload⟩ := nnRun_spec dist cs.length cs
    { stops := [depotStop depot 0 "08:00"], total_distance := 0,
      total_load := 0, current_time := 8 * 60, current_location := depot } rfl
  have hfL : L.filter (fun s => s.type == "customer") = L :=
    List.filter_eq_self.mpr (fun a ha => by simp [htype a ha])
  refine ⟨rfl, rfl, rfl, ?_, ?_, ?_, ?_⟩
  · simp only [create_simple_route, hstops]
    simp [depotStop]
  · simp only [create_simple_route, hstops]
    rw [List.getLast?_concat]
    rfl
  · simp only [customerStops, create_simple_route, hstops]
    have : (([depotStop depot 0 "08:00"] ++ L) ++
        [depotStop depot (nnRun dist cs.length cs
          { stops := [depotStop depot 0 "08:00"], total_distance := 0, total_load := 0,
            current_time := 8 * 60, current_location := depot }).total_load
          (minutes_to_time ((nnRun dist cs.length cs
            { stops := [depotStop depot 0 "08:00"], total_distance := 0, total_load := 0,
              current_time := 8 * 60, current_location := depot }).current_time +
            pyTrunc (dist (nnRun dist cs.length cs
              { stops := [depotStop depot 0 "08:00"], total_distance := 0, total_load := 0,
                current_time := 8 * 60, current_location := depot }).current_location depot
              * 60 / 50)))]).filter (fun s => s.type == "customer") = L := by
      simp [List.filter_append, hfL, depotStop]
    rw [this]
    exact hperm
  · simp only [create_simple_route, hload]
    simp

theorem assignRoutes_nil_customers (dist : Coordinate → Coordinate → ℚ)
    (depot : Coordinate) (k : ℕ) :
    ∀ (vs : List Vehicle) (i : ℕ), assignRoutes dist depot k i vs [] = [] := by
  intro vs
  induction vs with
  | nil => intro i; rfl
  | cons v vs ih =>
    intro i
    cases vs with
    | nil => rfl
    | cons w ws => simp [assignRoutes, ih]

theorem assignRoutes_mem (dist : Coordinate → Coordinate → ℚ) (depot : Coordinate)
    (k : ℕ) :
    ∀ (vs : List Vehicle) (rem : List Customer) (i : ℕ) (rt : Route),
      rt ∈ assignRoutes dist depot k i vs rem →
      ∃ j u cs, cs ≠ [] ∧ rt = create_simple_route dist j u cs depot := by
  intro vs
  induction vs with
  | nil => intro rem i rt h; simp [assignRoutes] at h
  | cons v vs ih =>
    intro rem i rt h
    cases vs with
    | nil =>
      simp only [assignRoutes] at h
      by_cases he : rem.isEmpty
      · rw [if_pos he] at h; simp at h
      · rw [if_neg he] at h
        have : rt = create_simple_route dist i v rem depot := by simpa using h
        exact ⟨i, v, rem, by simpa [List.isEmpty_iff] using he, this⟩
    | cons w ws =>
      simp only [assignRoutes] at h
      by_cases he : (rem.take k).isEmpty
      · rw [if_pos he] at h
        exact ih _ _ _ h
      · rw [if_neg he] at h
        rcases List.mem_cons.mp h with h' | h'
        · exact ⟨i, v, rem.take k, by simpa [List.isEmpty_iff] using he, h'⟩
        · exact ih _ _ _ h'

theorem assignRoutes_complete (dist : Coordinate → Coordinate → ℚ)
    (depot : Coordinate) (k : ℕ) (hk : 1 ≤ k) :
    ∀ (vs : List Vehicle) (rem : List Customer) (i : ℕ), vs ≠ [] →
      (vs.length - 1) * k + 1 ≤ rem.length →
      ((assignRoutes dist depot k i vs rem).map
          (fun rt => (rt.vehicle_name, rt.vehicle_type, rt.capacity))
        = vs.map (fun u => (u.name, u.type, u.capacity))) ∧
      List.Perm ((assignRoutes dist depot k i vs rem).flatMap
          (fun rt => (customerStops rt).map stopKey)) (rem.map custKey) := by
  intro vs
  induction vs with
  | nil => intro rem i hne _; exact absurd rfl hne
  | cons v vs ih =>
    intro rem i _ hlen
    obtain ⟨hn, ht, hc, _, _, hperm1, _⟩ := create_simple_route_spec dist i v (rem.take k) depot
    cases vs with
    | nil =>
      have hrne : rem ≠ [] := by
        intro e; subst e; simp at hlen
      have hEmpty : rem.isEmpty = false := by
        cases rem
        · exact absurd rfl hrne
        · rfl
      obtain ⟨hn1, ht1, hc1, _, _, hperm2, _⟩ := create_simple_route_spec dist i v rem depot
      simp only [assignRoutes, hEmpty, Bool.false_eq_true, if_false]
      constructor
      · simp [hn1, ht1, hc1]
      · simpa using hperm2
    | cons w ws =>
      have hexp : ((v :: w :: ws : List Vehicle).length - 1) * k
          = ws.length * k + k := by
        simp only [List.length_cons]
        have h1 : ws.length + 1 + 1 - 1 = ws.length + 1 := rfl
        rw [h1, Nat.succ_mul]
      rw [hexp] at hlen
      have hkR : k ≤ rem.length :=
        le_trans (Nat.le_add_left k (ws.length * k)) (Nat.le_of_succ_le hlen)
      have hinv : ((w :: ws : List Vehicle).length - 1) * k + 1 ≤ (rem.drop k).length := by
        rw [List.length_drop]
        have hexp2 : ((w :: ws : List Vehicle).length - 1) * k = ws.length * k := by
          simp only [List.length_cons, Nat.add_sub_cancel]
        rw [hexp2]
        have h2 : ws.length * k + 1 + k ≤ rem.length := by
          have h3 : ws.length * k + 1 + k = ws.length * k + k + 1 := by ring
          rw [h3]; exact hlen
        exact Nat.le_sub_of_add_le h2
      have htne : (rem.take k).isEmpty = false := by
        have hlt : 0 < (rem.take k).length := by
          rw [List.length_take]
          exact lt_min (lt_of_lt_of_le Nat.zero_lt_one hk)
            (lt_of_lt_of_le (lt_of_lt_of_le Nat.zero_lt_one hk) hkR)
        cases he : rem.take k
        · rw [he] at hlt; simp at hlt
        · rfl
      obtain ⟨ihmap, ihperm⟩ := ih (rem.drop k) (i + 1) (by simp) hinv
      simp only [assignRoutes, htne, Bool.false_eq_true, if_false]
      constructor
      · simp only [List.map_cons, ihmap, hn, ht, hc]
      · simp only [List.flatMap_cons]
        have hsplit : rem.map custKey
            = (rem.take k).map custKey ++ (rem.drop k).map custKey := by
          rw [← List.map_append, List.take_append_drop]
        rw [hsplit]
        exact List.Perm.append hperm1 ihperm

theorem assignRoutes_one_each (dist : Coordinate → Coordinate → ℚ)
    (depot : Coordinate) :
    ∀ (vs : List Vehicle) (rem : List Customer) (i : ℕ), rem.length < vs.length →
      ((assignRoutes dist depot 1 i vs rem).map
          (fun rt => (rt.vehicle_name, rt.vehicle_type, rt.capacity))
        = (vs.take rem.length).map (fun u => (u.name, u.type, u.capacity))) ∧
      (∀ rt ∈ assignRoutes dist depot 1 i vs rem, (customerStops rt).length = 1) ∧
      (assignRoutes dist depot 1 i vs rem).length = rem.length := by
  intro vs
  induction vs with
  | nil => intro rem i h; simp at h
  | cons v vs ih =>
    intro rem i hlen
    cases vs with
    | nil =>
      have hnil : rem = [] := by simpa using hlen
      subst hnil
      exact ⟨rfl, by simp [assignRoutes], rfl⟩
    | cons w ws =>
      cases rem with
      | nil =>
        simp only [assignRoutes, List.take_nil, List.drop_nil, List.isEmpty_nil, if_true]
        rw [assignRoutes_nil_customers]
        exact ⟨rfl, by simp, rfl⟩
      | cons c cs =>
        have hlen' : cs.length < (w :: ws : List Vehicle).length := by
          simpa using Nat.lt_of_succ_lt_succ (by simpa using hlen)
        obtain ⟨ihmap, ihone, ihlen⟩ := ih cs (i + 1) hlen'
        have htake : (c :: cs).take 1 = [c] := by simp
        have hdrop : (c :: cs).drop 1 = cs := by simp
        obtain ⟨hn, ht, hc, _, _, hperm1, _⟩ :=
          create_simple_route_spec dist i v [c] depot
        have hone : (customerStops (create_simple_route dist i v [c] depot)).length = 1 := by
          have := hperm1.length_eq
          simpa using this
        simp only [assignRoutes, htake, hdrop, List.isEmpty_cons, Bool.false_eq_true,
          if_false]
        refine ⟨?_, ?_, ?_⟩
        · simp only [List.map_cons, ihmap, hn, ht, hc, List.length_cons, List.take_succ_cons]
        · intro rt hrt
          rcases List.mem_cons.mp hrt with h' | h'
          · subst h'; exact hone
          · exact ihone rt h'
        · simp [ihlen]

theorem simple_solve_routes (dist : Coordinate → Coordinate → ℚ)
    (r : VRPRequest) (rt : Route) :
    rt ∈ solvedRoutes (simple_solve_vrp dist r) →
    ∃ j u cs, cs ≠ [] ∧ rt = create_simple_route dist j u cs r.depot := by
  intro h
  cases hveh : r.vehicles with
  | nil =>
    unfold solvedRoutes solutionOf? simple_solve_vrp simple_solve_body at h
    rw [hveh] at h
    simp at h
  | cons v vs =>
    unfold solvedRoutes solutionOf? simple_solve_vrp simple_solve_body at h
    rw [hveh] at h
    dsimp only at h
    exact assignRoutes_mem dist r.depot _ _ _ _ _ h

/-! ### C3: orchestrator fallback order -/

/-- C3: the orchestrator tries greedy, then Gemini, then OR-Tools; the
first non-null Solution is the result, later strategies are not invoked,
and the request is reported failed exactly when all three return null. -/
theorem c3_fallback_chain_order (simple gemini ortools : Unit → Option VRPSolution) :
    ((solve_fallback_chain simple gemini ortools).result
        = ((simple ()).orElse (fun _ => (gemini ()).orElse (fun _ => ortools ())))) ∧
    ((simple ()).isSome →
      (solve_fallback_chain simple gemini ortools).geminiInvoked = false ∧
      (solve_fallback_chain simple gemini ortools).ortoolsInvoked = false) ∧
    (simple () = none → (gemini ()).isSome →
      (solve_fallback_chain simple gemini ortools).ortoolsInvoked = false) ∧
    (chainReportsSuccess (solve_fallback_chain simple gemini ortools) = false ↔
      simple () = none ∧ gemini () = none ∧ ortools () = none) := by
  cases hs : simple () <;> cases hg : gemini () <;> cases ho : ortools () <;>
    simp [solve_fallback_chain, chainReportsSuccess, hs, hg, ho, Option.orElse]

/-- Witness for C3: the chain at concrete strategies (greedy fails, Gemini
succeeds) does not invoke OR-Tools. -/
theorem c3_fallback_chain_order_witness :
    (solve_fallback_chain thunkNone thunkSolX thunkNone).ortoolsInvoked = false :=
  (c3_fallback_chain_order thunkNone thunkSolX thunkNone).2.2.1 rfl rfl

/-! ### C4: time-window array when time windows are disabled -/

/-- C4 counterexample: with time windows disabled, the prepared
time-window array is empty — it does not assign `(0, 86400)` to every
node (here 2 nodes, array length 0). -/
theorem c4_counterexample :
    reqC2.use_time_windows = false ∧
    (create_data_model dist0 reqC2).time_windows = [] ∧
    (create_data_model dist0 reqC2).time_windows.length ≠ 1 + reqC2.customers.length := by
  decide

/-- C4 amended: when time windows are disabled the array is empty; when
they are enabled, the depot and every customer without an explicit window
receive `(0, 86400)` and a customer with a window receives its parsed
bounds. -/
theorem c4_time_windows_amended (dist : Coordinate → Coordinate → ℚ) (r : VRPRequest) :
    (r.use_time_windows = false → (create_data_model dist r).time_windows = []) ∧
    (r.use_time_windows = true →
      (create_data_model dist r).time_windows.length = 1 + r.customers.length ∧
      (create_data_model dist r).time_windows.head? = some (0, 86400) ∧
      ∀ i (h : i < r.customers.length),
        (create_data_model dist r).time_windows.getD (i + 1) (0, 0) =
          (match (r.customers.get ⟨i, h⟩).time_window with
           | some tw => (time_to_seconds tw.start, time_to_seconds tw.finish)
           | none => ((0 : ℤ), (86400 : ℤ)))) := by
  constructor
  · intro h; simp [create_data_model, h]
  · intro h
    refine ⟨by simp [create_data_model, h, Nat.add_comm], by simp [create_data_model, h], ?_⟩
    intro i hi
    simp [create_data_model, h, List.getD, List.getElem?_map,
      List.getElem?_eq_getElem hi, List.get_eq_getElem]

/-- Witness for C4's amended claim at `reqC4tw`. -/
theorem c4_time_windows_amended_witness :
    (create_data_model dist0 reqC4tw).time_windows.length = 1 + reqC4tw.customers.length ∧
    (create_data_model dist0 reqC4tw).time_windows.head? = some (0, 86400) :=
  ⟨((c4_time_windows_amended dist0 reqC4tw).2 rfl).1,
   ((c4_time_windows_amended dist0 reqC4tw).2 rfl).2.1⟩

/-! ### C5: capacity dimension gating -/

/-- C5 counterexample: with `use_capacity_constraints = False` the routing
model still receives the capacity dimension (zero slack, the vehicles'
capacities, cumul started at zero). -/
theorem c5_counterexample :
    reqC5.use_capacity_constraints = false ∧
    (build_routing_model (create_data_model dist0 reqC5) reqC5).capacity_dimension =
      some ⟨0, [5], true⟩ := by
  decide

/-- C5 amended: the capacity dimension is added unconditionally — with
zero slack, the vehicles' capacities as bounds and cumul starting at
zero — regardless of `use_capacity_constraints`; only the time dimension
is gated (by `use_time_windows`). -/
theorem c5_capacity_dimension_amended (dist : Coordinate → Coordinate → ℚ)
    (r : VRPRequest) :
    (build_routing_model (create_data_model dist r) r).capacity_dimension =
      some ⟨0, r.vehicles.map (fun v => v.capacity), true⟩ ∧
    ((build_routing_model (create_data_model dist r) r).time_dimension.isSome ↔
      r.use_time_windows = true) := by
  refine ⟨rfl, ?_⟩
  cases h : r.use_time_windows <;> simp [build_routing_model, h]

/-- Witness for C5's amended claim at `reqC5`. -/
theorem c5_capacity_dimension_amended_witness :
    (build_routing_model (create_data_model dist0 reqC5) reqC5).capacity_dimension =
      some ⟨0, reqC5.vehicles.map (fun v => v.capacity), true⟩ :=
  (c5_capacity_dimension_amended dist0 reqC5).1

/-! ### C6: no strategy propagates an exception -/

/-- C6: for every input (and every behaviour of the external collaborators
and of the internal fallible steps), each strategy returns a value — a
Solution or `None` — and never a raised exception. -/
theorem c6_no_exception_propagation
    (dist : Coordinate → Coordinate → ℚ) (r : VRPRequest)
    (jsonParse : String → Except PyErr SolutionData) (transport : Except PyErr String)
    {α : Type} (solver : RoutingModelSpec → Except PyErr (Option α))
    (format : α → Except PyErr VRPSolution) :
    (∃ o, simple_solve_vrp dist r = .ok o) ∧
    (∃ o, gemini_solve_vrp jsonParse transport r = .ok o) ∧
    (∃ o, vrp_solve_vrp solver format dist r = .ok o) := by
  refine ⟨?_, ?_, ?_⟩
  · unfold simple_solve_vrp
    cases simple_solve_body dist r <;> exact ⟨_, rfl⟩
  · unfold gemini_solve_vrp
    cases transport <;> exact ⟨_, rfl⟩
  · unfold vrp_solve_vrp
    dsimp only
    cases h : solve_with_ortools solver (create_data_model dist r) r with
    | none => refine ⟨none, by simp [h]⟩
    | some res =>
      cases hf : format res with
      | ok s => refine ⟨some s, by simp [h, hf]⟩
      | error e => refine ⟨none, by simp [h, hf]⟩

/-- Witness for C6 at a concrete request, a failing transport, a failing
parser and a failing formatter: all three strategies still return (with
`none`) rather than raise. -/
theorem c6_no_exception_propagation_witness :
    (∃ o, simple_solve_vrp dist0 reqC2 = .ok o) ∧
    (∃ o, gemini_solve_vrp (fun _ => .error .valueError)
        (.error (.other "network timeout")) reqC2 = .ok o) ∧
    (∃ o, vrp_solve_vrp (α := Unit) (fun _ => .error (.other "solver crash"))
        (fun _ => .error .valueError) dist0 reqC2 = .ok o) :=
  c6_no_exception_propagation dist0 reqC2 (fun _ => .error .valueError)
    (.error (.other "network timeout")) (fun _ => .error (.other "solver crash"))
    (fun _ => .error .valueError)

/-! ### C9: HH:MM round trip -/

/-- C9: for every valid HH:MM string (hours 00–23, minutes 00–59),
`_time_to_seconds` followed by `_seconds_to_time` returns the original
string. -/
theorem c9_time_round_trip :
    ∀ h : ℕ, h < 24 → ∀ m : ℕ, m < 60 →
      seconds_to_time (time_to_seconds (formatTwoDigits h ++ ":" ++ formatTwoDigits m)) =
        formatTwoDigits h ++ ":" ++ formatTwoDigits m := by
  decide

/-- Witness for C9 at 08:30. -/
theorem c9_time_round_trip_witness :
    seconds_to_time (time_to_seconds (formatTwoDigits 8 ++ ":" ++ formatTwoDigits 30)) =
      formatTwoDigits 8 ++ ":" ++ formatTwoDigits 30 :=
  c9_time_round_trip 8 (by decide) 30 (by decide)

/-! ### C1: greedy strategy covers every vehicle and every customer -/

/-- C1: for `customers_count ≥ vehicles_count ≥ 1`, the greedy strategy returns
a Solution whose routes correspond 1:1, in order, to the request's vehicles
(so every vehicle is the vehicle of exactly one route) and whose customer stops
across all routes are exactly the input customers — as a multiset of
id/name/coordinate/demand — with none omitted or duplicated. -/
theorem c1_greedy_partition_complete (dist : Coordinate → Coordinate → ℚ)
    (r : VRPRequest) (hv : 1 ≤ r.vehicles.length)
    (hc : r.vehicles.length ≤ r.customers.length) :
    ∃ sol, simple_solve_vrp dist r = .ok (some sol) ∧
      sol.routes.map (fun rt => (rt.vehicle_name, rt.vehicle_type, rt.capacity))
        = r.vehicles.map (fun u => (u.name, u.type, u.capacity)) ∧
      List.Perm (sol.routes.flatMap (fun rt => (customerStops rt).map stopKey))
        (r.customers.map custKey) := by
  obtain ⟨v, vs, hveh⟩ : ∃ v vs, r.vehicles = v :: vs := by
    cases h : r.vehicles with
    | nil => rw [h] at hv; simp at hv
    | cons v vs => exact ⟨v, vs, rfl⟩
  have hVpos : 0 < (v :: vs : List Vehicle).length := by simp
  have hVc : (v :: vs : List Vehicle).length ≤ r.customers.length := by
    rw [← hveh]; exact hc
  have hq : 1 ≤ r.customers.length / (v :: vs : List Vehicle).length :=
    (Nat.one_le_div_iff hVpos).mpr hVc
  have hkeq : max 1 (r.customers.length / (v :: vs : List Vehicle).length)
      = r.customers.length / (v :: vs : List Vehicle).length := Nat.max_eq_right hq
  have hinv : ((v :: vs : List Vehicle).length - 1)
      * (r.customers.length / (v :: vs : List Vehicle).length) + 1
      ≤ r.customers.length := by
    have h1 : ((v :: vs : List Vehicle).length - 1)
          * (r.customers.length / (v :: vs : List Vehicle).length)
          + r.customers.length / (v :: vs : List Vehicle).length
        = (v :: vs : List Vehicle).length
          * (r.customers.length / (v :: vs : List Vehicle).length) := by
      simp only [List.length_cons, Nat.add_sub_cancel]
      rw [← Nat.succ_mul]
    have h2 : (v :: vs : List Vehicle).length
          * (r.customers.length / (v :: vs : List Vehicle).length)
        ≤ r.customers.length := by
      rw [Nat.mul_comm]; exact Nat.div_mul_le_self _ _
    calc ((v :: vs : List Vehicle).length - 1)
          * (r.customers.length / (v :: vs : List Vehicle).length) + 1
        ≤ ((v :: vs : List Vehicle).length - 1)
          * (r.customers.length / (v :: vs : List Vehicle).length)
          + r.customers.length / (v :: vs : List Vehicle).length :=
          Nat.add_le_add_left hq _
      _ = _ := h1
      _ ≤ r.customers.length := h2
  obtain ⟨hmap, hperm⟩ := assignRoutes_complete dist r.depot
    (max 1 (r.customers.length / (v :: vs : List Vehicle).length))
    (le_max_left _ _) (v :: vs) r.customers 0 (by simp)
    (by rw [hkeq]; exact hinv)
  have hshape : ∃ sol, simple_solve_vrp dist r = .ok (some sol) ∧
      sol.routes = assignRoutes dist r.depot
        (max 1 (r.customers.length / (v :: vs : List Vehicle).length))
        0 (v :: vs) r.customers := by
    unfold simple_solve_vrp simple_solve_body
    rw [hveh]
    exact ⟨_, rfl, rfl⟩
  obtain ⟨sol, hsol, hroutes⟩ := hshape
  refine ⟨sol, hsol, ?_, ?_⟩
  · rw [hroutes, hveh]; exact hmap
  · rw [hroutes]; exact hperm

/-- Witness for C1 at `reqC2` (one vehicle, one customer) under `dist0`. -/
theorem c1_greedy_partition_complete_witness :
    ∃ sol, simple_solve_vrp dist0 reqC2 = .ok (some sol) ∧
      sol.routes.map (fun rt => (rt.vehicle_name, rt.vehicle_type, rt.capacity))
        = reqC2.vehicles.map (fun u => (u.name, u.type, u.capacity)) ∧
      List.Perm (sol.routes.flatMap (fun rt => (customerStops rt).map stopKey))
        (reqC2.customers.map custKey) :=
  c1_greedy_partition_complete dist0 reqC2 (by decide) (by decide)

/-! ### C10: more vehicles than customers -/

/-- C10: for `1 ≤ customers_count < vehicles_count`, the greedy strategy
returns a Solution with exactly `customers_count` routes — corresponding, in
order, to the first `customers_count` vehicles, so the vehicles beyond them
produce no route — each serving exactly one customer, and with `vehicles_used`
equal to `customers_count`. -/
theorem c10_more_vehicles_than_customers (dist : Coordinate → Coordinate → ℚ)
    (r : VRPRequest) (h1 : 1 ≤ r.customers.length)
    (h2 : r.customers.length < r.vehicles.length) :
    ∃ sol, simple_solve_vrp dist r = .ok (some sol) ∧
      sol.routes.length = r.customers.length ∧
      sol.vehicles_used = r.customers.length ∧
      (∀ rt ∈ sol.routes, (customerStops rt).length = 1) ∧
      sol.routes.map (fun rt => (rt.vehicle_name, rt.vehicle_type, rt.capacity))
        = (r.vehicles.take r.customers.length).map
            (fun u => (u.name, u.type, u.capacity)) := by
  obtain ⟨v, vs, hveh⟩ : ∃ v vs, r.vehicles = v :: vs := by
    cases h : r.vehicles with
    | nil => rw [h] at h2; simp at h2
    | cons v vs => exact ⟨v, vs, rfl⟩
  have h2' : r.customers.length < (v :: vs : List Vehicle).length := by
    rw [← hveh]; exact h2
  have hdiv : r.customers.length / (v :: vs : List Vehicle).length = 0 :=
    Nat.div_eq_of_lt h2'
  have hk : max 1 (r.customers.length / (v :: vs : List Vehicle).length) = 1 := by
    rw [hdiv]; decide
  obtain ⟨hmap, hone, hlen⟩ :=
    assignRoutes_one_each dist r.depot (v :: vs) r.customers 0 h2'
  have hshape : ∃ sol, simple_solve_vrp dist r = .ok (some sol) ∧
      sol.routes = assignRoutes dist r.depot
        (max 1 (r.customers.length / (v :: vs : List Vehicle).length))
        0 (v :: vs) r.customers ∧
      sol.vehicles_used = (assignRoutes dist r.depot
        (max 1 (r.customers.length / (v :: vs : List Vehicle).length))
        0 (v :: vs) r.customers).length := by
    unfold simple_solve_vrp simple_solve_body
    rw [hveh]
    exact ⟨_, rfl, rfl, rfl⟩
  obtain ⟨sol, hsol, hroutes, hused⟩ := hshape
  rw [hk] at hroutes hused
  refine ⟨sol, hsol, ?_, ?_, ?_, ?_⟩
  · rw [hroutes]; exact hlen
  · rw [hused, hlen]
  · rw [hroutes]; exact hone
  · rw [hroutes, hveh]; exact hmap

/-- Witness for C10 at `reqC10w` (one customer, two vehicles) under `dist0`. -/
theorem c10_more_vehicles_than_customers_witness :
    ∃ sol, simple_solve_vrp dist0 reqC10w = .ok (some sol) ∧
      sol.routes.length = reqC10w.customers.length ∧
      sol.vehicles_used = reqC10w.customers.length ∧
      (∀ rt ∈ sol.routes, (customerStops rt).length = 1) ∧
      sol.routes.map (fun rt => (rt.vehicle_name, rt.vehicle_type, rt.capacity))
        = (reqC10w.vehicles.take reqC10w.customers.length).map
            (fun u => (u.name, u.type, u.capacity)) :=
  c10_more_vehicles_than_customers dist0 reqC10w (by decide) (by decide)

/-! ### C2: route load vs. capacity -/

/-- C2 counterexample: with capacity constraints enabled (the request default),
the greedy strategy — the orchestrator's first and authoritative strategy —
returns a Solution whose only kept route carries total_load 10 on a vehicle of
capacity 5. -/
theorem c2_counterexample :
    reqC2.use_capacity_constraints = true ∧
    (solutionOf? (simple_solve_vrp dist0 reqC2)).map
        (fun s => s.routes.map (fun rt => (rt.total_load, rt.capacity)))
      = some [(10, 5)] ∧
    ¬ ((10 : ℤ) ≤ 5) := by decide

/-- C2 amended: every kept greedy route's total_load equals the sum of its
customer stops' demands, but the bound total_load ≤ capacity is not enforced by
the greedy strategy even when `use_capacity_constraints` is true; the bound is
imposed only by the constraint-programming strategy's capacity dimension. -/
theorem c2_total_load_amended (dist : Coordinate → Coordinate → ℚ)
    (r : VRPRequest) (rt : Route)
    (h : rt ∈ solvedRoutes (simple_solve_vrp dist r)) :
    ((customerStops rt).map (fun st => st.demand)).sum = rt.total_load := by
  obtain ⟨j, u, cs, -, rfl⟩ := simple_solve_routes dist r rt h
  obtain ⟨-, -, -, -, -, hperm, hload⟩ := create_simple_route_spec dist j u cs r.depot
  have hdem : List.Perm
      ((customerStops (create_simple_route dist j u cs r.depot)).map
        (fun st => st.demand))
      (cs.map (fun x => x.demand)) := by
    have hmap := hperm.map (fun p : String × String × Coordinate × ℤ => p.2.2.2)
    simpa [List.map_map, Function.comp] using hmap
  rw [hdem.sum_eq, hload]

unseal Rat.add Rat.mul Rat.inv Rat.sub in
/-- Witness for C2's amended claim at the route `rtC2w` kept for `reqC2`. -/
theorem c2_total_load_amended_witness :
    ((customerStops rtC2w).map (fun st => st.demand)).sum = rtC2w.total_load :=
  c2_total_load_amended dist0 reqC2 rtC2w (by
    have he : solvedRoutes (simple_solve_vrp dist0 reqC2) = [rtC2w] := by decide
    rw [he]
    exact List.mem_singleton_self rtC2w)

/-! ### C7: depot endpoints of routes -/

/-- C7 counterexample: the external/AI strategy can produce a Solution whose
single route consists of exactly one stop of type customer — the route neither
starts nor ends with a depot stop. -/
theorem c7_counterexample :
    (solutionOf? (gemini_solve_vrp (fun _ => .ok sdC7) (.ok "") reqC2)).map
        (fun s => s.routes.map (fun rt => rt.stops.map (fun st => st.type)))
      = some [["customer"]] ∧
    "customer" ≠ "depot" := by decide

/-- C7 amended: routes built by the greedy strategy always start and end with a
depot stop; routes reconciled by the external adapter consist only of the stops
that parsed and matched, so they need not start or end with a depot stop. -/
theorem c7_depot_endpoints_amended (dist : Coordinate → Coordinate → ℚ)
    (r : VRPRequest) (rt : Route)
    (h : rt ∈ solvedRoutes (simple_solve_vrp dist r)) :
    rt.stops.head?.map (fun st => st.type) = some "depot" ∧
    rt.stops.getLast?.map (fun st => st.type) = some "depot" := by
  obtain ⟨j, u, cs, -, rfl⟩ := simple_solve_routes dist r rt h
  obtain ⟨-, -, -, hhead, hlast, -, -⟩ := create_simple_route_spec dist j u cs r.depot
  exact ⟨hhead, hlast⟩

unseal Rat.add Rat.mul Rat.inv Rat.sub in
/-- Witness for C7's amended claim at the route `rtC2w` kept for `reqC2`. -/
theorem c7_depot_endpoints_amended_witness :
    rtC2w.stops.head?.map (fun st => st.type) = some "depot" ∧
    rtC2w.stops.getLast?.map (fun st => st.type) = some "depot" :=
  c7_depot_endpoints_amended dist0 reqC2 rtC2w (by
    have he : solvedRoutes (simple_solve_vrp dist0 reqC2) = [rtC2w] := by decide
    rw [he]
    exact List.mem_singleton_self rtC2w)

/-! ### C8: vehicle reconciliation order -/

/-- C8 counterexample: a vehicle matching the returned route's name exists
(`vehC8b`), but reconciliation selects `vehC8a` — whose id matches — because
it comes first in the vehicle list: name matches are not given priority over id
matches. -/
theorem c8_counterexample :
    (reqC8.vehicles.any (fun u => u.name == rdC8.vehicle_name.getD "Araç")) = true ∧
    ((create_route_from_data rdC8 reqC8).map
        (fun rt => (rt.vehicle_type, rt.capacity)))
      = some (vehC8a.type, vehC8a.capacity) ∧
    ((create_route_from_data rdC8 reqC8).map
        (fun rt => (rt.vehicle_type, rt.capacity)))
      ≠ some (vehC8b.type, vehC8b.capacity) := by decide

/-- C8 amended: reconciliation selects the first vehicle in list order whose
name equals the returned name **or** whose id equals the returned id; only when
no vehicle matches either is the first vehicle of the list used (and the route
is dropped when the vehicle list is empty). -/
theorem c8_vehicle_matching_amended (rd : RouteData) (r : VRPRequest) (rt : Route)
    (h : create_route_from_data rd r = some rt) :
    ∃ u : Vehicle,
      (r.vehicles.find? (fun w => w.name == rd.vehicle_name.getD "Araç"
          || w.id == rd.vehicle_id.getD "V001") = some u ∨
        (r.vehicles.find? (fun w => w.name == rd.vehicle_name.getD "Araç"
          || w.id == rd.vehicle_id.getD "V001") = none ∧
         r.vehicles.head? = some u)) ∧
      rt.vehicle_type = u.type ∧ rt.capacity = u.capacity := by
  unfold create_route_from_data at h
  dsimp only at h
  cases hf : r.vehicles.find? (fun w => w.name == rd.vehicle_name.getD "Araç"
      || w.id == rd.vehicle_id.getD "V001") with
  | some u =>
    rw [hf] at h
    dsimp only [Option.orElse] at h
    obtain rfl : _ = rt := Option.some.inj h
    exact ⟨u, Or.inl rfl, rfl, rfl⟩
  | none =>
    rw [hf] at h
    dsimp only [Option.orElse] at h
    cases hh : r.vehicles.head? with
    | none => rw [hh] at h; cases h
    | some u =>
      rw [hh] at h
      obtain rfl : _ = rt := Option.some.inj h
      exact ⟨u, Or.inr ⟨rfl, rfl⟩, rfl, rfl⟩

unseal Rat.add Rat.mul Rat.inv Rat.sub in
/-- Witness for C8's amended claim at `rdC8`/`reqC8`, whose reconciled route is
`rtC8w`. -/
theorem c8_vehicle_matching_amended_witness :
    ∃ u : Vehicle,
      (reqC8.vehicles.find? (fun w => w.name == rdC8.vehicle_name.getD "Araç"
          || w.id == rdC8.vehicle_id.getD "V001") = some u ∨
        (reqC8.vehicles.find? (fun w => w.name == rdC8.vehicle_name.getD "Araç"
          || w.id == rdC8.vehicle_id.getD "V001") = none ∧
         reqC8.vehicles.head? = some u)) ∧
      rtC8w.vehicle_type = u.type ∧ rtC8w.capacity = u.capacity :=
  c8_vehicle_matching_amended rdC8 reqC8 rtC8w (by decide)

end VRP
